import Mathlib

/-!
Verification of the CI workflow helper scripts of `ubuntu-autoinstall-agent`.

The development shallowly embeds two Python modules:

* `.github/workflows/scripts/ci_workflow.py` — the change-detection driven
  test-matrix generator (`detect_changes`, `should_run_tests`,
  `generate_test_matrix`, `get_branch_version_target`,
  `format_matrix_summary`).  The repository snapshot ships only the unit
  tests (`tests/workflow_scripts/test_ci_workflow.py`) and the integration
  tests for this module, not the module body itself, so the functions are
  modelled from the specification (spec.md §3, §4.1–§4.4, §8), consistent
  with the behaviours asserted by the shipped tests.
* `.github/workflows/scripts/workflow_common.py` — the shared configuration
  accessor (`get_repository_config`, `config_path`) and error type
  (`WorkflowError`), whose source is present and is embedded directly.

Python dictionaries are embedded as association lists, the YAML value
universe as an inductive type, and the subprocess/file I/O of the change
detector and the config accessor as explicit parameters (the outcome of the
single `git diff` call, respectively the outcome of reading the config
file, plus explicit passing of the module-global `_CONFIG_CACHE`).
-/

/-- Modelled from the spec: the `ChangeDetection` dataclass of
`ci_workflow.py` (absent from the snapshot; only its tests are shipped).
One boolean category flag per tracked category plus the raw list of
changed file paths, all defaulting to false / empty (spec.md §3
"ChangeSet"; `test_change_detection_dataclass_defaults`). -/
structure ChangeDetection where
  go_changed : Bool := false
  python_changed : Bool := false
  rust_changed : Bool := false
  frontend_changed : Bool := false
  docker_changed : Bool := false
  docs_changed : Bool := false
  workflows_changed : Bool := false
  all_files : List String := []
deriving Repr, DecidableEq

/-- Modelled from the spec: `should_run_tests(language, changeset)` of
`ci_workflow.py` (absent from the snapshot).  True when the changeset's
flag for the language is set or the workflow-files flag is set; an
unrecognized language name yields false (spec.md §4.2). -/
def should_run_tests (language : String) (changes : ChangeDetection) : Bool :=
  if language = "go" then changes.go_changed || changes.workflows_changed
  else if language = "python" then changes.python_changed || changes.workflows_changed
  else if language = "rust" then changes.rust_changed || changes.workflows_changed
  else if language = "frontend" then changes.frontend_changed || changes.workflows_changed
  else if language = "docker" then changes.docker_changed || changes.workflows_changed
  else false

/-- The language names `should_run_tests` recognizes (the languages with a
category flag in `ChangeDetection`). -/
def recognizedTestLanguages : List String :=
  ["go", "python", "rust", "frontend", "docker"]

/-- Split a character list at every occurrence of the separator `c`.
Executable counterpart of Python's `str.split` for a one-character
separator; always returns at least one (possibly empty) segment. -/
def splitOnChar (c : Char) : List Char → List (List Char)
  | [] => [[]]
  | x :: rest =>
    match splitOnChar c rest with
    | [] => if x = c then [[], []] else [[x]]
    | r :: rs => if x = c then [] :: r :: rs else (x :: r) :: rs

/-- Split a string at every occurrence of the separator character. -/
def splitString (c : Char) (s : String) : List String :=
  (splitOnChar c s.toList).map String.mk

/-- Modelled from the spec: `get_branch_version_target(branch_name,
language)` of `ci_workflow.py` (absent from the snapshot).  A branch name
of the form `stable-<track>-<language>-<version>` (fixed prefix, language
name, free-form version suffix) yields the version; anything else yields
none (spec.md §3 "BranchVersionTarget", §4.3 step 2;
`test_get_branch_version_target_stable_branch`). -/
def get_branch_version_target (branch_name language : String) : Option String :=
  match splitString '-' branch_name with
  | "stable" :: _track :: lang :: ver :: rest =>
    if lang = language then some (String.intercalate "-" (ver :: rest)) else none
  | _ => none

/-- Modelled from the spec: one concrete test job of the generated matrix,
`{language, version, os, branch}` (spec.md §3 "MatrixEntry", §6
"Output"). -/
structure MatrixEntry where
  language : String
  version : String
  os : String
  branch : String
deriving Repr, DecidableEq

/-- Look up a language's configured version list in the version catalog
(a Python dict embedded as an association list). -/
def lookupVersions (catalog : List (String × List String)) (language : String) :
    Option (List String) :=
  match catalog with
  | [] => none
  | kv :: rest => if kv.1 == language then some kv.2 else lookupVersions rest language

/-- The full cross product of a version list with a platform list, in
version-major order (spec.md §4.3 step 4). -/
def crossEntries (language branch : String) (vers platforms : List String) :
    List MatrixEntry :=
  match vers with
  | [] => []
  | v :: rest =>
    platforms.map (fun os => ⟨language, v, os, branch⟩)
      ++ crossEntries language branch rest platforms

/-- Modelled from the spec: the per-language step of
`generate_test_matrix` of `ci_workflow.py` (absent from the snapshot).
Returns the generated entries together with the diagnostic notices that
the Python code prints (spec.md §4.3 steps 1–5):
1. absent or empty version list — skip with a notice;
2. stable-track branch — one entry per platform pinned to the extracted
   version when it is configured, otherwise skip with a notice
   (`optimize` is ignored either way);
3. `optimize = true` — the last (latest) version on every platform, every
   older version only on the first platform;
4. `optimize = false` — the full version × platform cross product. -/
def matrixForLanguage (catalog : List (String × List String)) (platforms : List String)
    (optimize : Bool) (branch_name language : String) :
    List MatrixEntry × List String :=
  match lookupVersions catalog language with
  | none => ([], ["No versions configured for " ++ language])
  | some [] => ([], ["No versions configured for " ++ language])
  | some (v :: vs) =>
    match get_branch_version_target branch_name language with
    | some target =>
      if (v :: vs).contains target then
        (platforms.map (fun os => ⟨language, target, os, branch_name⟩), [])
      else
        ([], ["Branch target " ++ target ++ " not in configured versions"])
    | none =>
      if optimize then
        (platforms.map (fun os => ⟨language, (v :: vs).getLastD v, os, branch_name⟩)
          ++ (match platforms with
              | [] => []
              | first :: _ =>
                (v :: vs).dropLast.map (fun ver => ⟨language, ver, first, branch_name⟩)),
         [])
      else
        (crossEntries language branch_name (v :: vs) platforms, [])

/-- Modelled from the spec: `generate_test_matrix(languages, versions,
platforms, optimize, branch_name)` of `ci_workflow.py` (absent from the
snapshot).  Concatenates the per-language entries (the `"include"` list of
the returned matrix object) and the printed diagnostic notices, in input
order (spec.md §4.3). -/
def generate_test_matrix (languages : List String)
    (catalog : List (String × List String)) (platforms : List String)
    (optimize : Bool) (branch_name : String) : List MatrixEntry × List String :=
  (languages.flatMap (fun l => (matrixForLanguage catalog platforms optimize branch_name l).1),
   languages.flatMap (fun l => (matrixForLanguage catalog platforms optimize branch_name l).2))

/-- One markdown table row of the matrix summary: language, version,
platform. -/
def summaryRow (e : MatrixEntry) : String :=
  "| " ++ e.language ++ " | " ++ e.version ++ " | " ++ e.os ++ " |"

/-- The fixed notice returned for an empty matrix
(`test_format_matrix_summary_empty`). -/
def noTestsNotice : String := "❌ No tests to run"

/-- Modelled from the spec: the lines of `format_matrix_summary(matrix)`
of `ci_workflow.py` (absent from the snapshot).  Zero entries yield the
fixed "no tests to run" notice; otherwise a header with the total entry
count is followed by one table row per entry in generation order
(spec.md §4.4; `test_format_matrix_summary_with_entries`). -/
def matrix_summary_lines (entries : List MatrixEntry) : List String :=
  match entries with
  | [] => [noTestsNotice]
  | _ :: _ =>
    ["## Test Matrix",
     "",
     "**Total Jobs**: " ++ toString entries.length,
     "",
     "| Language | Version | Platform |",
     "| --- | --- | --- |"]
      ++ entries.map summaryRow

/-- Modelled from the spec: `format_matrix_summary(matrix)` of
`ci_workflow.py` (absent from the snapshot); the summary text is its
lines joined by newlines (spec.md §4.4). -/
def format_matrix_summary (entries : List MatrixEntry) : String :=
  String.intercalate "\n" (matrix_summary_lines entries)

/-- A failed `git diff` subprocess invocation (Python's
`subprocess.CalledProcessError`): non-zero exit code and the command. -/
structure GitFailure where
  returncode : Nat
  cmd : String
deriving Repr, DecidableEq

/-- The `WorkflowError` of `workflow_common.py`: message plus optional
remediation hint and documentation link. -/
structure WorkflowErrorInfo where
  message : String
  hint : String
  docs_url : String
deriving Repr, DecidableEq

/-- Modelled from the spec: the error `detect_changes` of `ci_workflow.py`
(absent from the snapshot) raises when the `git diff` subprocess fails — a
`WorkflowError` whose message the tests pin to contain "Failed to detect
changes" and which carries a remediation hint (spec.md §4.1 "Failure";
`test_detect_changes_git_failure`). -/
def detectChangesFailure : WorkflowErrorInfo :=
  { message := "Failed to detect changes"
    hint := "Ensure the base and head git references exist before invoking"
    docs_url := "" }

/-- Boolean test that `pat` is a prefix of the second list. -/
def listIsPrefixB : List Char → List Char → Bool
  | [], _ => true
  | _ :: _, [] => false
  | a :: as, b :: bs => a == b && listIsPrefixB as bs

/-- Boolean test that `pat` occurs as a contiguous segment of the list. -/
def listIsInfixB (pat : List Char) : List Char → Bool
  | [] => pat.isEmpty
  | c :: cs => listIsPrefixB pat (c :: cs) || listIsInfixB pat cs

/-- Boolean suffix test on strings. -/
def strEndsWith (s suf : String) : Bool :=
  listIsPrefixB suf.toList.reverse s.toList.reverse

/-- Boolean substring-containment test on strings. -/
def strContains (s pat : String) : Bool :=
  listIsInfixB pat.toList s.toList

/-- Modelled from the spec: the per-path category classifier of
`detect_changes` of `ci_workflow.py` (absent from the snapshot).  File
extension suffix match for the language categories, substring containment
for the path-based documentation and workflow categories; one path may
set several flags at once (spec.md §4.1). -/
def classifyFile (path : String) (d : ChangeDetection) : ChangeDetection :=
  { d with
    go_changed := d.go_changed || strEndsWith path ".go"
      || path == "go.mod" || path == "go.sum"
    python_changed := d.python_changed || strEndsWith path ".py"
      || path == "requirements.txt" || path == "pyproject.toml"
    rust_changed := d.rust_changed || strEndsWith path ".rs"
      || path == "Cargo.toml" || path == "Cargo.lock"
    frontend_changed := d.frontend_changed || strEndsWith path ".js"
      || strEndsWith path ".ts" || strEndsWith path ".tsx"
      || strEndsWith path ".jsx" || path == "package.json"
    docker_changed := d.docker_changed || strContains path "Dockerfile"
      || path == "docker-compose.yml" || path == "docker-compose.yaml"
    docs_changed := d.docs_changed || strEndsWith path ".md"
      || strContains path "docs/"
    workflows_changed := d.workflows_changed || strContains path ".github/workflows" }

/-- Modelled from the spec: `detect_changes` of `ci_workflow.py` (absent
from the snapshot), parameterized by the outcome of its single `git diff
--name-only` subprocess call.  On a failed subprocess it fails with the
`WorkflowError` above (no retry: the model consumes exactly one
outcome); on success it classifies each reported path and retains the raw
file list (spec.md §4.1). -/
def detect_changes (gitDiff : Except GitFailure String) :
    Except WorkflowErrorInfo ChangeDetection :=
  match gitDiff with
  | Except.error _ => Except.error detectChangesFailure
  | Except.ok stdout =>
    let files := (splitString '\n' stdout).filter (fun f => f != "")
    Except.ok (files.foldl (fun d f => classifyFile f d) { all_files := files })

/-- The YAML value universe, embedding what `yaml.safe_load` can return in
`workflow_common.py`: `nullV` is Python `None`, dictionaries are
association lists. -/
inductive YamlValue where
  | nullV : YamlValue
  | boolV : Bool → YamlValue
  | intV : Int → YamlValue
  | strV : String → YamlValue
  | listV : List YamlValue → YamlValue
  | dictV : List (String × YamlValue) → YamlValue

/-- Python dict lookup on the association-list embedding (first matching
key wins; YAML mappings have unique keys). -/
def lookupKey (entries : List (String × YamlValue)) (key : String) : Option YamlValue :=
  match entries with
  | [] => none
  | kv :: rest => if kv.1 == key then some kv.2 else lookupKey rest key

/-- Embeds `config_path(default, *path)` of `workflow_common.py`
(lines 125–132), with the loaded configuration passed explicitly: walk the
keys; whenever the current value is not a dict or the key is absent,
return the default; otherwise descend. -/
def config_path (config : YamlValue) (default : YamlValue) : List String → YamlValue
  | [] => config
  | key :: rest =>
    match config with
    | YamlValue.dictV entries =>
      match lookupKey entries key with
      | some v => config_path v default rest
      | none => default
    | _ => default

/-- Specification-side dotted-path lookup: `some` of the stored value when
every key along the path exists in nested dictionaries, `none` as soon as
a key is absent or an intermediate value is not a dictionary.  Written
from the spec's words (spec.md §2 "Config accessor") to be compared with
`config_path`. -/
def pathLookupSpec : YamlValue → List String → Option YamlValue
  | v, [] => some v
  | YamlValue.dictV entries, key :: rest =>
    match lookupKey entries key with
    | some v => pathLookupSpec v rest
    | none => none
  | _, _ :: _ => none

/-- Outcome of reading `.github/repository-config.yml`: file missing, a
YAML parse error, or a successfully parsed value. -/
inductive ReadResult where
  | missing : ReadResult
  | yamlFailed : String → ReadResult
  | parsed : YamlValue → ReadResult

/-- The `WorkflowError` raised when the config file is missing
(`workflow_common.py` lines 94–105). -/
def configMissingError : WorkflowErrorInfo :=
  { message := "repository-config.yml not found"
    hint := "Run: cp .github/repository-config.example.yml .github/repository-config.yml"
    docs_url := "https://github.com/jdfalk/ghcommon/docs/refactors/workflows/v2/reference/config-schema.md" }

/-- The `WorkflowError` raised on a YAML parse error
(`workflow_common.py` lines 110–114). -/
def invalidYamlErrorInfo (msg : String) : WorkflowErrorInfo :=
  { message := "Invalid YAML in repository-config.yml: " ++ msg
    hint := "Validate with: yamllint .github/repository-config.yml"
    docs_url := "" }

/-- The `WorkflowError` raised when the parsed top level is not a
dictionary (`workflow_common.py` lines 116–120). -/
def notDictError : WorkflowErrorInfo :=
  { message := "repository-config.yml must contain a YAML dictionary"
    hint := "Ensure the file starts with top-level keys"
    docs_url := "" }

/-- Embeds `get_repository_config()` of `workflow_common.py`
(lines 86–122), with the file-read outcome and the module global
`_CONFIG_CACHE` passed explicitly.  Returns the call's result, the cache
after the call, and the number of file read-and-parse operations the call
performed.  Mirrors the source line by line: a non-`None` cache is
returned immediately with no read; a missing file raises before any read;
`_CONFIG_CACHE = yaml.safe_load(handle)` assigns the parsed value to the
cache *before* the `isinstance(dict)` check, so a parsed non-dictionary
value other than `None` stays in the cache even though the call raises
(parsed `None` leaves the cache empty, since storing Python `None` is
indistinguishable from an unset cache). -/
def get_repository_config (fileRead : ReadResult) (cache : Option YamlValue) :
    Except WorkflowErrorInfo YamlValue × Option YamlValue × Nat :=
  match cache with
  | some cached => (Except.ok cached, some cached, 0)
  | none =>
    match fileRead with
    | ReadResult.missing => (Except.error configMissingError, none, 0)
    | ReadResult.yamlFailed msg => (Except.error (invalidYamlErrorInfo msg), none, 1)
    | ReadResult.parsed v =>
      match v with
      | YamlValue.dictV entries =>
        (Except.ok (YamlValue.dictV entries), some (YamlValue.dictV entries), 1)
      | YamlValue.nullV => (Except.error notDictError, none, 1)
      | other => (Except.error notDictError, some other, 1)

/-- C1: with `optimize = true` and a branch name that is not a
stable-track branch for the language, a language whose configured version
list is `v :: vs` and a non-empty platform list `p :: ps` yield exactly
one entry per platform carrying the last (latest) version, followed by
exactly one entry per older version, each using only the first platform —
`platforms.length + (versions.length - 1)` entries in total. -/
theorem generate_test_matrix_optimized_shape
    (catalog : List (String × List String)) (branch language v p : String)
    (vs ps : List String)
    (hl : lookupVersions catalog language = some (v :: vs))
    (hb : get_branch_version_target branch language = none) :
    (generate_test_matrix [language] catalog (p :: ps) true branch).1
      = (p :: ps).map (fun os => ⟨language, (v :: vs).getLastD v, os, branch⟩)
        ++ (v :: vs).dropLast.map (fun ver => ⟨language, ver, p, branch⟩)
    ∧ (generate_test_matrix [language] catalog (p :: ps) true branch).1.length
      = (p :: ps).length + ((v :: vs).length - 1) := by
  refine ⟨?_, ?_⟩ <;>
    simp [generate_test_matrix, matrixForLanguage, hl, hb, List.length_dropLast]
  all_goals omega

/-- C1 witness: the end-to-end scenario of the spec — go versions
`["1.23", "1.24"]`, two platforms, `optimize = true`, branch `main` —
yields the three expected entries. -/
theorem generate_test_matrix_optimized_shape_witness :
    (generate_test_matrix ["go"] [("go", ["1.23", "1.24"])]
        ["ubuntu-latest", "macos-latest"] true "main").1
      = [⟨"go", "1.24", "ubuntu-latest", "main"⟩,
         ⟨"go", "1.24", "macos-latest", "main"⟩,
         ⟨"go", "1.23", "ubuntu-latest", "main"⟩]
    ∧ (generate_test_matrix ["go"] [("go", ["1.23", "1.24"])]
        ["ubuntu-latest", "macos-latest"] true "main").1.length = 3 :=
  generate_test_matrix_optimized_shape [("go", ["1.23", "1.24"])] "main" "go"
    "1.23" "ubuntu-latest" ["1.24"] ["macos-latest"] rfl rfl

/-- Length of the version × platform cross product. -/
theorem crossEntries_length (language branch : String) (vers platforms : List String) :
    (crossEntries language branch vers platforms).length
      = vers.length * platforms.length := by
  induction vers with
  | nil => simp [crossEntries]
  | cons v rest ih => simp [crossEntries, ih, Nat.succ_mul, Nat.add_comm]

/-- C2: with `optimize = false` and a branch name that is not a
stable-track branch for the language, a language with configured version
list `vers` yields exactly `vers.length * platforms.length` entries — the
full cross product of its versions with the platforms. -/
theorem generate_test_matrix_full_count
    (catalog : List (String × List String)) (platforms : List String)
    (branch language : String) (vers : List String)
    (hl : lookupVersions catalog language = some vers)
    (hb : get_branch_version_target branch language = none) :
    (generate_test_matrix [language] catalog platforms false branch).1.length
      = vers.length * platforms.length := by
  cases vers with
  | nil => simp [generate_test_matrix, matrixForLanguage, hl]
  | cons v vs =>
    simp [generate_test_matrix, matrixForLanguage, hl, hb, crossEntries_length]

/-- C2 witness: go versions `["1.23", "1.24"]`, two platforms,
`optimize = false`, branch `main` — four entries. -/
theorem generate_test_matrix_full_count_witness :
    (generate_test_matrix ["go"] [("go", ["1.23", "1.24"])]
        ["ubuntu-latest", "macos-latest"] false "main").1.length = 4 :=
  generate_test_matrix_full_count [("go", ["1.23", "1.24"])]
    ["ubuntu-latest", "macos-latest"] "main" "go" ["1.23", "1.24"] rfl rfl

/-- C3: on a branch matching the stable-track convention for the
language, and for either value of `optimize`: if the extracted version is
in the configured list, the language yields exactly one entry per
platform, all pinned to that version; if it is absent, the language
yields zero entries. -/
theorem generate_test_matrix_stable_branch
    (catalog : List (String × List String)) (platforms : List String)
    (branch language target : String) (vers : List String) (optimize : Bool)
    (hl : lookupVersions catalog language = some vers)
    (hb : get_branch_version_target branch language = some target) :
    (target ∈ vers →
      (generate_test_matrix [language] catalog platforms optimize branch).1
        = platforms.map (fun os => ⟨language, target, os, branch⟩)
      ∧ (generate_test_matrix [language] catalog platforms optimize branch).1.length
        = platforms.length
      ∧ ∀ e ∈ (generate_test_matrix [language] catalog platforms optimize branch).1,
          e.version = target)
    ∧ (target ∉ vers →
      (generate_test_matrix [language] catalog platforms optimize branch).1 = []) := by
  cases vers with
  | nil =>
    refine ⟨fun h => absurd h (List.not_mem_nil target), fun _ => ?_⟩
    simp [generate_test_matrix, matrixForLanguage, hl]
  | cons v vs =>
    constructor
    · intro hmem
      have hmem' : target = v ∨ target ∈ vs := List.mem_cons.mp hmem
      refine ⟨?_, ?_, ?_⟩ <;>
        simp [generate_test_matrix, matrixForLanguage, hl, hb, hmem']
    · intro hmem
      have hmem' : ¬(target = v ∨ target ∈ vs) := by simpa using hmem
      simp [generate_test_matrix, matrixForLanguage, hl, hb, hmem']

/-- C3 witness: on branch `stable-1-go-1.23` with go versions
`["1.23", "1.24", "1.25"]` the matrix has one entry per platform pinned
to `1.23`; with versions `["1.24", "1.25"]` (extracted version absent) it
is empty. -/
theorem generate_test_matrix_stable_branch_witness :
    (generate_test_matrix ["go"] [("go", ["1.23", "1.24", "1.25"])]
        ["ubuntu-latest", "macos-latest"] true "stable-1-go-1.23").1
      = [⟨"go", "1.23", "ubuntu-latest", "stable-1-go-1.23"⟩,
         ⟨"go", "1.23", "macos-latest", "stable-1-go-1.23"⟩]
    ∧ (generate_test_matrix ["go"] [("go", ["1.24", "1.25"])]
        ["ubuntu-latest"] true "stable-1-go-1.23").1 = [] :=
  ⟨((generate_test_matrix_stable_branch [("go", ["1.23", "1.24", "1.25"])]
      ["ubuntu-latest", "macos-latest"] "stable-1-go-1.23" "go" "1.23"
      ["1.23", "1.24", "1.25"] true rfl rfl).1 (by decide)).1,
   (generate_test_matrix_stable_branch [("go", ["1.24", "1.25"])]
      ["ubuntu-latest"] "stable-1-go-1.23" "go" "1.23"
      ["1.24", "1.25"] true rfl rfl).2 (by decide)⟩

/-- C4: a listed language whose version list is absent from the catalog
or empty contributes zero entries and exactly the diagnostic notice, and
removing it from the language list leaves the generated entries of every
other language unchanged; `generate_test_matrix` is a total function, so
no exception is involved. -/
theorem generate_test_matrix_missing_versions
    (catalog : List (String × List String)) (platforms : List String)
    (optimize : Bool) (branch bad : String) (pre post : List String)
    (h : lookupVersions catalog bad = none ∨ lookupVersions catalog bad = some []) :
    (matrixForLanguage catalog platforms optimize branch bad).1 = []
    ∧ (matrixForLanguage catalog platforms optimize branch bad).2
      = ["No versions configured for " ++ bad]
    ∧ (generate_test_matrix (pre ++ bad :: post) catalog platforms optimize branch).1
      = (generate_test_matrix (pre ++ post) catalog platforms optimize branch).1 := by
  have hempty : (matrixForLanguage catalog platforms optimize branch bad).1 = []
      ∧ (matrixForLanguage catalog platforms optimize branch bad).2
        = ["No versions configured for " ++ bad] := by
    rcases h with h | h <;> simp [matrixForLanguage, h]
  refine ⟨hempty.1, hempty.2, ?_⟩
  simp [generate_test_matrix, hempty.1]

/-- C4 witness: the test scenario — languages `["go", "unknown"]` with
only go configured — keeps the single go entry and reports the notice
for `unknown`. -/
theorem generate_test_matrix_missing_versions_witness :
    (matrixForLanguage [("go", ["1.24"])] ["ubuntu-latest"] true "main" "unknown").1 = []
    ∧ (matrixForLanguage [("go", ["1.24"])] ["ubuntu-latest"] true "main" "unknown").2
      = ["No versions configured for unknown"]
    ∧ (generate_test_matrix ["go", "unknown"] [("go", ["1.24"])]
        ["ubuntu-latest"] true "main").1
      = (generate_test_matrix ["go"] [("go", ["1.24"])]
          ["ubuntu-latest"] true "main").1 :=
  generate_test_matrix_missing_versions [("go", ["1.24"])] ["ubuntu-latest"]
    true "main" "unknown" ["go"] [] (Or.inl rfl)

/-- C5: `should_run_tests` returns true exactly when the changeset's flag
for the language is set or the workflow-files flag is set, for every
recognized language; any language name outside the recognized set yields
false. -/
theorem should_run_tests_policy (changes : ChangeDetection) :
    should_run_tests "go" changes = (changes.go_changed || changes.workflows_changed)
    ∧ should_run_tests "python" changes
      = (changes.python_changed || changes.workflows_changed)
    ∧ should_run_tests "rust" changes
      = (changes.rust_changed || changes.workflows_changed)
    ∧ should_run_tests "frontend" changes
      = (changes.frontend_changed || changes.workflows_changed)
    ∧ should_run_tests "docker" changes
      = (changes.docker_changed || changes.workflows_changed)
    ∧ ∀ language, language ∉ recognizedTestLanguages →
        should_run_tests language changes = false := by
  refine ⟨?_, ?_, ?_, ?_, ?_, ?_⟩
  · simp [should_run_tests]
  · simp [should_run_tests]
  · simp [should_run_tests]
  · simp [should_run_tests]
  · simp [should_run_tests]
  · intro language h
    simp only [recognizedTestLanguages, List.mem_cons, List.not_mem_nil, or_false,
      not_or] at h
    obtain ⟨h1, h2, h3, h4, h5⟩ := h
    simp [should_run_tests, h1, h2, h3, h4, h5]

/-- C5 witness: an unrecognized language is false even with the
workflow-files flag set, while a recognized language with only the
workflow-files flag set runs. -/
theorem should_run_tests_policy_witness :
    should_run_tests "haskell" { workflows_changed := true } = false :=
  (should_run_tests_policy { workflows_changed := true }).2.2.2.2.2 "haskell"
    (by decide)

/-- C6: whenever the single `git diff` subprocess call fails,
`detect_changes` returns the `WorkflowError` carrying the "Failed to
detect changes" message and a non-empty remediation hint, and never a
`ChangeDetection`. -/
theorem detect_changes_git_failure (failure : GitFailure) :
    detect_changes (Except.error failure) = Except.error detectChangesFailure
    ∧ detectChangesFailure.message = "Failed to detect changes"
    ∧ detectChangesFailure.hint ≠ ""
    ∧ ∀ changes, detect_changes (Except.error failure) ≠ Except.ok changes := by
  refine ⟨rfl, rfl, by decide, ?_⟩
  intro changes h
  simp [detect_changes] at h

/-- C7: `format_matrix_summary` of an empty matrix is the fixed "no tests
to run" notice, and for a non-empty matrix the summary lines after the
fixed six-line header are exactly one `language | version | platform` row
per entry, in generation order. -/
theorem format_matrix_summary_rows (entries : List MatrixEntry) :
    format_matrix_summary [] = "❌ No tests to run"
    ∧ (entries ≠ [] →
        (matrix_summary_lines entries).drop 6 = entries.map summaryRow
        ∧ ((matrix_summary_lines entries).drop 6).length = entries.length) := by
  refine ⟨rfl, ?_⟩
  intro hne
  cases entries with
  | nil => exact absurd rfl hne
  | cons e rest => simp [matrix_summary_lines]

/-- C7 witness: the two-entry matrix of the unit test yields exactly the
two expected rows after the header. -/
theorem format_matrix_summary_rows_witness :
    (matrix_summary_lines
        [⟨"go", "1.24", "ubuntu-latest", "main"⟩,
         ⟨"python", "3.13", "macos-latest", "main"⟩]).drop 6
      = ["| go | 1.24 | ubuntu-latest |", "| python | 3.13 | macos-latest |"]
    ∧ ((matrix_summary_lines
        [⟨"go", "1.24", "ubuntu-latest", "main"⟩,
         ⟨"python", "3.13", "macos-latest", "main"⟩]).drop 6).length = 2 :=
  (format_matrix_summary_rows
    [⟨"go", "1.24", "ubuntu-latest", "main"⟩,
     ⟨"python", "3.13", "macos-latest", "main"⟩]).2 (by decide)

/-- C8: `config_path` returns the value stored at the dotted key path
whenever every key along the path exists in nested dictionaries
(`pathLookupSpec` succeeds), and returns the supplied default exactly
when some key is absent or an intermediate value is not a dictionary
(`pathLookupSpec` fails). -/
theorem config_path_follows_spec (config default : YamlValue) (path : List String) :
    (∀ v, pathLookupSpec config path = some v →
      config_path config default path = v)
    ∧ (pathLookupSpec config path = none →
      config_path config default path = default) := by
  induction path generalizing config with
  | nil =>
    exact ⟨fun v hv => by simpa [pathLookupSpec, config_path] using hv,
           fun h => by simp [pathLookupSpec] at h⟩
  | cons key rest ih =>
    cases config with
    | dictV entries =>
      cases hk : lookupKey entries key with
      | none =>
        refine ⟨fun v hv => ?_, fun _ => ?_⟩
        · simp [pathLookupSpec, hk] at hv
        · simp [config_path, hk]
      | some w =>
        refine ⟨fun v hv => ?_, fun h => ?_⟩
        · have hv' : pathLookupSpec w rest = some v := by
            simpa [pathLookupSpec, hk] using hv
          simpa [config_path, hk] using (ih w).1 v hv'
        · have h' : pathLookupSpec w rest = none := by
            simpa [pathLookupSpec, hk] using h
          simpa [config_path, hk] using (ih w).2 h'
    | nullV => exact ⟨fun v hv => by simp [pathLookupSpec] at hv,
                      fun _ => by simp [config_path]⟩
    | boolV b => exact ⟨fun v hv => by simp [pathLookupSpec] at hv,
                        fun _ => by simp [config_path]⟩
    | intV i => exact ⟨fun v hv => by simp [pathLookupSpec] at hv,
                       fun _ => by simp [config_path]⟩
    | strV s => exact ⟨fun v hv => by simp [pathLookupSpec] at hv,
                       fun _ => by simp [config_path]⟩
    | listV l => exact ⟨fun v hv => by simp [pathLookupSpec] at hv,
                        fun _ => by simp [config_path]⟩

/-- C8 witness: on the nested configuration of the unit tests,
`config_path` retrieves `languages.versions.go` and falls back to the
default `42` on the missing path `missing.key`. -/
theorem config_path_follows_spec_witness :
    config_path
        (YamlValue.dictV [("languages", YamlValue.dictV
          [("versions", YamlValue.dictV
            [("go", YamlValue.listV [YamlValue.strV "1.23", YamlValue.strV "1.24"])])])])
        (YamlValue.intV 42) ["languages", "versions", "go"]
      = YamlValue.listV [YamlValue.strV "1.23", YamlValue.strV "1.24"]
    ∧ config_path
        (YamlValue.dictV [("languages", YamlValue.dictV
          [("versions", YamlValue.dictV
            [("go", YamlValue.listV [YamlValue.strV "1.23", YamlValue.strV "1.24"])])])])
        (YamlValue.intV 42) ["missing", "key"]
      = YamlValue.intV 42 :=
  ⟨(config_path_follows_spec
      (YamlValue.dictV [("languages", YamlValue.dictV
        [("versions", YamlValue.dictV
          [("go", YamlValue.listV [YamlValue.strV "1.23", YamlValue.strV "1.24"])])])])
      (YamlValue.intV 42) ["languages", "versions", "go"]).1
      (YamlValue.listV [YamlValue.strV "1.23", YamlValue.strV "1.24"]) rfl,
   (config_path_follows_spec
      (YamlValue.dictV [("languages", YamlValue.dictV
        [("versions", YamlValue.dictV
          [("go", YamlValue.listV [YamlValue.strV "1.23", YamlValue.strV "1.24"])])])])
      (YamlValue.intV 42) ["missing", "key"]).2 rfl⟩

/-- C9: a first call on an empty cache that succeeds stores exactly the
returned dictionary in the cache, and every subsequent call — whatever
the file now contains — returns that cached value with zero file reads
and an unchanged cache, so calling twice equals calling once. -/
theorem get_repository_config_caches
    (fileRead : ReadResult) (cfg : YamlValue) (cache : Option YamlValue) (reads : Nat)
    (h : get_repository_config fileRead none = (Except.ok cfg, cache, reads)) :
    cache = some cfg
    ∧ ∀ laterRead, get_repository_config laterRead (some cfg)
        = (Except.ok cfg, some cfg, 0) := by
  have hc : cache = some cfg := by
    cases fileRead with
    | missing => simp [get_repository_config] at h
    | yamlFailed msg => simp [get_repository_config] at h
    | parsed v =>
      cases v <;> simp [get_repository_config] at h
      simp [h.1, h.2.1.symm]
  exact ⟨hc, fun laterRead => by simp [get_repository_config]⟩

/-- C9 witness: after a first successful load of `{test: value}`, a
second call returns the cached dictionary with zero reads even though
the file is now missing. -/
theorem get_repository_config_caches_witness :
    get_repository_config ReadResult.missing
        (some (YamlValue.dictV [("test", YamlValue.strV "value")]))
      = (Except.ok (YamlValue.dictV [("test", YamlValue.strV "value")]),
         some (YamlValue.dictV [("test", YamlValue.strV "value")]), 0) :=
  (get_repository_config_caches
    (ReadResult.parsed (YamlValue.dictV [("test", YamlValue.strV "value")]))
    (YamlValue.dictV [("test", YamlValue.strV "value")])
    (some (YamlValue.dictV [("test", YamlValue.strV "value")])) 1 rfl).2
    ReadResult.missing

/-- C10: evaluation at the failing input.  When the parsed top level is a
YAML list, the first call does raise the dictionary error, but —
because `_CONFIG_CACHE` is assigned before the `isinstance` check — the
cache now holds the list, and a second call returns the non-dictionary
value as a success with no further read, contradicting the claim that
the cache is left unpopulated. -/
theorem get_repository_config_non_dict_poisons_cache :
    (get_repository_config (ReadResult.parsed (YamlValue.listV [])) none).1
      = Except.error notDictError
    ∧ (get_repository_config (ReadResult.parsed (YamlValue.listV [])) none).2.1
      = some (YamlValue.listV [])
    ∧ (get_repository_config ReadResult.missing (some (YamlValue.listV []))).1
      = Except.ok (YamlValue.listV []) :=
  ⟨rfl, rfl, rfl⟩
